import Mathlib

/-!
Shallow embedding of the `vitality-engine` backend core
(`app/services/chat_service.py`, `app/services/document_service.py`,
`app/services/metrics_service.py`, `app/models/*.py`).

Modelling conventions:
* The process-global mutable lists `chat_messages` and `documents` become
  explicit state parameters (`List ChatMessage`, `List Document`); a stateful
  operation returns its result together with the successor state.
* `datetime.now()` is an explicit parameter: timestamps are abstract instants
  (`Int`), while the chart code works at calendar-day granularity, so there
  the current time is a day number (`Int`, days since 1970-01-01).
* `random.randint(a, b)` consumes one abstract draw `n : Nat` from an oracle
  and reduces it into the inclusive range `[a, b]`.
* Python's `str` / f-string rendering of a nonnegative integer is embedded as
  `natRepr` (decimal digits, most significant first), and
  `datetime.strftime("%Y-%m-%d")` as `formatDate` (Gregorian civil-from-days
  conversion followed by zero-padded decimal formatting).
-/

/-- The character for decimal digit `n % 10`, as Python renders it. -/
def digitChar (n : Nat) : Char := Char.ofNat (48 + n % 10)

/-- Decimal digits of `n`, most significant first, with explicit fuel so the
recursion is structural (`fuel` bounds the number of digits). -/
def natDigitsAux : Nat → Nat → List Char
  | 0, _ => []
  | fuel + 1, n =>
    if n < 10 then [digitChar n]
    else natDigitsAux fuel (n / 10) ++ [digitChar (n % 10)]

/-- Decimal digits of `n`, most significant first; `n + 1` units of fuel are
always sufficient. -/
def natDigits (n : Nat) : List Char := natDigitsAux (n + 1) n

/-- Embedding of Python's `str(n)` for a natural number `n`. -/
def natRepr (n : Nat) : String := String.mk (natDigits n)

/-- Value of a digit string, used as a left inverse of `natDigits`. -/
def digitsVal (l : List Char) : Nat :=
  l.foldl (fun a c => a * 10 + (c.toNat - 48)) 0

/-- `app/models/chat.py`: `ChatMessageCreate` (content, sender). -/
structure ChatMessageCreate where
  content : String
  sender : String
deriving DecidableEq, Repr

/-- `app/models/chat.py`: `ChatMessage` (id, content, sender, timestamp). -/
structure ChatMessage where
  id : String
  content : String
  sender : String
  timestamp : Int
deriving DecidableEq, Repr

/-- `app/models/document.py`: `DocumentCreate` (title, content). -/
structure DocumentCreate where
  title : String
  content : String
deriving DecidableEq, Repr

/-- `app/models/document.py`: `Document` (id, title, content, timestamp). -/
structure Document where
  id : String
  title : String
  content : String
  timestamp : Int
deriving DecidableEq, Repr

/-- `chat_service.get_all_messages`: returns the store's contents. -/
def get_all_messages (chat_messages : List ChatMessage) : List ChatMessage :=
  chat_messages

/-- `chat_service.create_message`: builds a record whose id is
`"msg_" + str(len(chat_messages) + 1)`, stamps it with the current time,
appends it, and returns it together with the grown store. -/
def create_message (message : ChatMessageCreate) (now : Int)
    (chat_messages : List ChatMessage) : ChatMessage × List ChatMessage :=
  let new_message : ChatMessage :=
    { id := "msg_" ++ natRepr (chat_messages.length + 1)
      content := message.content
      sender := message.sender
      timestamp := now }
  (new_message, chat_messages ++ [new_message])

/-- `document_service.get_all_documents`: returns the store's contents. -/
def get_all_documents (documents : List Document) : List Document :=
  documents

/-- `document_service.create_document`: same append-log discipline as
`create_message`, with fields title/content and id prefixed by `"doc_"`. -/
def create_document (document : DocumentCreate) (now : Int)
    (documents : List Document) : Document × List Document :=
  let new_document : Document :=
    { id := "doc_" ++ natRepr (documents.length + 1)
      title := document.title
      content := document.content
      timestamp := now }
  (new_document, documents ++ [new_document])

/-- Chat-store states reachable from the initial empty store by any sequence
of `create_message` calls (the only mutating operation). -/
inductive ChatReachable : List ChatMessage → Prop where
  | init : ChatReachable []
  | step (s : List ChatMessage) (msg : ChatMessageCreate) (now : Int) :
      ChatReachable s → ChatReachable (create_message msg now s).2

/-- Document-store states reachable from the initial empty store by any
sequence of `create_document` calls. -/
inductive DocReachable : List Document → Prop where
  | init : DocReachable []
  | step (s : List Document) (doc : DocumentCreate) (now : Int) :
      DocReachable s → DocReachable (create_document doc now s).2

/-- Run a batch of `create_message` calls (input and wall-clock instant for
each) left to right against a starting store. -/
def run_creates (inputs : List (ChatMessageCreate × Int))
    (s : List ChatMessage) : List ChatMessage :=
  inputs.foldl (fun st p => (create_message p.1 p.2 st).2) s

/-- Phase 1 of `create_message` as the interleaving model sees it: read the
current store length (the Python code's `len(chat_messages)`). -/
def create_read (chat_messages : List ChatMessage) : Nat :=
  chat_messages.length

/-- Phase 2 of `create_message`: use a previously read length `n` to build the
id, then append. `create_message` is exactly `create_commit` applied to the
length read from the same state, with no exclusion around the two phases. -/
def create_commit (message : ChatMessageCreate) (now : Int) (n : Nat)
    (chat_messages : List ChatMessage) : ChatMessage × List ChatMessage :=
  let new_message : ChatMessage :=
    { id := "msg_" ++ natRepr (n + 1)
      content := message.content
      sender := message.sender
      timestamp := now }
  (new_message, chat_messages ++ [new_message])

/-- `app/models/metrics.py`: `Metrics`; pydantic `int` fields carry no range
constraint, so they embed as unconstrained `Int`. -/
structure Metrics where
  recovery_score : Int
  mobility_score : Int
  pain_level : Int
  exercises_completed : Int
  streak_days : Int
deriving DecidableEq, Repr

/-- `app/models/metrics.py`: `RecoveryDataPoint` (date string, int score). -/
structure RecoveryDataPoint where
  date : String
  score : Int
deriving DecidableEq, Repr

/-- `random.randint(a, b)`: one oracle draw `n` reduced into `[a, b]`
(inclusive on both ends). -/
def randint (a b : Int) (n : Nat) : Int :=
  a + ((n % (b + 1 - a).toNat : Nat) : Int)

/-- `metrics_service.get_metrics`: five independent draws, one per field. -/
def get_metrics (r1 r2 r3 r4 r5 : Nat) : Metrics :=
  { recovery_score := randint 70 95 r1
    mobility_score := randint 60 90 r2
    pain_level := randint 1 5 r3
    exercises_completed := randint 3 15 r4
    streak_days := randint 1 10 r5 }

/-- Gregorian civil date `(year, month, day)` of day number `z0` counted from
1970-01-01; `/` on `Int` is floor division for the positive divisors used
here. Embeds the calendar arithmetic behind `datetime` day handling. -/
def civilFromDays (z0 : Int) : Int × Int × Int :=
  let z := z0 + 719468
  let era := z / 146097
  let doe := z - era * 146097
  let yoe := (doe - doe / 1460 + doe / 36524 - doe / 146096) / 365
  let y := yoe + era * 400
  let doy := doe - (365 * yoe + yoe / 4 - yoe / 100)
  let mp := (5 * doy + 2) / 153
  let d := doy - (153 * mp + 2) / 5 + 1
  let m := mp + (if mp < 10 then 3 else -9)
  (y + (if m ≤ 2 then 1 else 0), m, d)

/-- Decimal digits of `n` left-padded with zeros to width `w`, as the
formatting directive `%0wd` renders it. -/
def padZeros (w : Nat) (n : Nat) : List Char :=
  List.replicate (w - (natDigits n).length) '0' ++ natDigits n

/-- `strftime("%Y-%m-%d")` applied to the civil date `(y, m, d)`. -/
def formatYMD (y m d : Nat) : String :=
  String.mk (padZeros 4 y ++ '-' :: padZeros 2 m ++ '-' :: padZeros 2 d)

/-- `strftime("%Y-%m-%d")` applied to day number `z`. -/
def formatDate (z : Int) : String :=
  formatYMD (civilFromDays z).1.toNat (civilFromDays z).2.1.toNat
    (civilFromDays z).2.2.toNat

/-- `metrics_service.get_recovery_chart_data`: for `i = 0..6` the point dated
`today - (6 - i)` days, with one independent score draw per point. -/
def get_recovery_chart_data (today : Int) (r : Nat → Nat) :
    List RecoveryDataPoint :=
  (List.range 7).map fun (i : Nat) =>
    { date := formatDate (today - (6 - (i : Int)))
      score := randint 65 95 (r i) }

/-- `c` is an ASCII decimal digit. -/
def isDigitChar (c : Char) : Prop := 48 ≤ c.toNat ∧ c.toNat ≤ 57

/-- The character list spells a date in `YYYY-MM-DD` shape: four digits, a
dash, two digits, a dash, two digits. -/
def isYMDShape (l : List Char) : Prop :=
  ∃ y m d : List Char,
    l = y ++ '-' :: m ++ '-' :: d ∧
    y.length = 4 ∧ m.length = 2 ∧ d.length = 2 ∧
    (∀ c ∈ y, isDigitChar c) ∧ (∀ c ∈ m, isDigitChar c) ∧
    (∀ c ∈ d, isDigitChar c)

/-- The whole process state: both in-memory stores (`chat_service.py`'s
`chat_messages` and `document_service.py`'s `documents`). -/
structure AppState where
  chat_messages : List ChatMessage
  documents : List Document
deriving DecidableEq, Repr

/-- The chat POST handler's effect on the whole process state. -/
def app_create_message (msg : ChatMessageCreate) (now : Int)
    (st : AppState) : ChatMessage × AppState :=
  let r := create_message msg now st.chat_messages
  (r.1, { st with chat_messages := r.2 })

/-- The chat GET handler's effect on the whole process state. -/
def app_get_all_messages (st : AppState) : List ChatMessage × AppState :=
  (get_all_messages st.chat_messages, st)

/-- The document POST handler's effect on the whole process state. -/
def app_create_document (doc : DocumentCreate) (now : Int)
    (st : AppState) : Document × AppState :=
  let r := create_document doc now st.documents
  (r.1, { st with documents := r.2 })

/-- The document GET handler's effect on the whole process state. -/
def app_get_all_documents (st : AppState) : List Document × AppState :=
  (get_all_documents st.documents, st)

/-- The metrics GET handler: `get_metrics` never reads or writes a store. -/
def app_get_metrics (r1 r2 r3 r4 r5 : Nat) (st : AppState) :
    Metrics × AppState :=
  (get_metrics r1 r2 r3 r4 r5, st)

/-- The recovery-chart GET handler: the generator never touches a store. -/
def app_get_recovery_chart_data (today : Int) (r : Nat → Nat)
    (st : AppState) : List RecoveryDataPoint × AppState :=
  (get_recovery_chart_data today r, st)

/-! ## Helper lemmas -/

theorem digitChar_toNat (n : Nat) : (digitChar n).toNat = 48 + n % 10 := by
  unfold digitChar
  have hm : n % 10 < 10 := Nat.mod_lt _ (by norm_num)
  set m := n % 10 with hmdef
  interval_cases m <;> decide

theorem digitChar_isDigit (n : Nat) : isDigitChar (digitChar n) := by
  constructor <;> rw [digitChar_toNat] <;> omega

theorem digitsVal_append (l : List Char) (c : Char) :
    digitsVal (l ++ [c]) = digitsVal l * 10 + (c.toNat - 48) := by
  simp [digitsVal, List.foldl_append]

theorem digitsVal_natDigitsAux (fuel : Nat) :
    ∀ n, 0 < fuel → n < 10 ^ fuel → digitsVal (natDigitsAux fuel n) = n := by
  induction fuel with
  | zero => intro n h _; omega
  | succ f ih =>
    intro n _ hn
    by_cases h10 : n < 10
    · simp only [natDigitsAux, if_pos h10]
      simp [digitsVal, digitChar_toNat]
      omega
    · have hf : 0 < f := by
        rcases Nat.eq_zero_or_pos f with hf0 | hf0
        · subst hf0; simp at hn; omega
        · exact hf0
      have hdiv : n / 10 < 10 ^ f := by
        rw [pow_succ] at hn
        omega
      simp only [natDigitsAux, if_neg h10, digitsVal_append,
        ih (n / 10) hf hdiv, digitChar_toNat]
      omega

theorem digitsVal_natDigits (n : Nat) : digitsVal (natDigits n) = n := by
  have h1 : n < 10 ^ n := Nat.lt_pow_self (by norm_num) n
  have h2 : (10 : Nat) ^ n ≤ 10 ^ (n + 1) :=
    Nat.pow_le_pow_right (by norm_num) (by omega)
  exact digitsVal_natDigitsAux (n + 1) n (by omega) (by omega)

theorem string_data_append (a b : String) :
    (a ++ b).data = a.data ++ b.data := by
  cases a; cases b; rfl

theorem natRepr_inj (a b : Nat) (h : natRepr a = natRepr b) : a = b := by
  have hd : natDigits a = natDigits b := congrArg String.data h
  have := congrArg digitsVal hd
  rwa [digitsVal_natDigits, digitsVal_natDigits] at this

theorem appendRepr_inj (p : String) (a b : Nat)
    (h : p ++ natRepr a = p ++ natRepr b) : a = b := by
  apply natRepr_inj
  have hd := congrArg String.data h
  rw [string_data_append, string_data_append] at hd
  have hc : (natRepr a).data = (natRepr b).data :=
    List.append_cancel_left hd
  exact congrArg String.mk hc

theorem create_message_snd (msg : ChatMessageCreate) (now : Int)
    (s : List ChatMessage) :
    (create_message msg now s).2 = s ++ [(create_message msg now s).1] := rfl

theorem create_message_length (msg : ChatMessageCreate) (now : Int)
    (s : List ChatMessage) :
    (create_message msg now s).2.length = s.length + 1 := by
  simp [create_message]

theorem create_document_snd (doc : DocumentCreate) (now : Int)
    (s : List Document) :
    (create_document doc now s).2 = s ++ [(create_document doc now s).1] := rfl

theorem create_document_length (doc : DocumentCreate) (now : Int)
    (s : List Document) :
    (create_document doc now s).2.length = s.length + 1 := by
  simp [create_document]

theorem chat_ids_reachable (s : List ChatMessage) (h : ChatReachable s) :
    s.map (fun m => m.id) =
      (List.range s.length).map (fun i => "msg_" ++ natRepr (i + 1)) := by
  induction h with
  | init => rfl
  | step s msg now _ ih =>
    rw [create_message_length, create_message_snd, List.map_append, ih,
      List.range_succ, List.map_append]
    simp [create_message]

theorem doc_ids_reachable (s : List Document) (h : DocReachable s) :
    s.map (fun m => m.id) =
      (List.range s.length).map (fun i => "doc_" ++ natRepr (i + 1)) := by
  induction h with
  | init => rfl
  | step s doc now _ ih =>
    rw [create_document_length, create_document_snd, List.map_append, ih,
      List.range_succ, List.map_append]
    simp [create_document]

theorem prefixed_ids_nodup (p : String) (n : Nat) :
    ((List.range n).map (fun i => p ++ natRepr (i + 1))).Nodup := by
  apply List.Nodup.map
  · intro i j hij
    have := appendRepr_inj p (i + 1) (j + 1) hij
    omega
  · exact List.nodup_range n

theorem chat_positional_ids (s : List ChatMessage) (h : ChatReachable s)
    (i : Nat) (hi : i < s.length) :
    (s.get ⟨i, hi⟩).id = "msg_" ++ natRepr (i + 1) := by
  have hm := chat_ids_reachable s h
  have h2 := List.get_of_eq hm ⟨i, by simpa using hi⟩
  simpa using h2

theorem doc_positional_ids (s : List Document) (h : DocReachable s)
    (i : Nat) (hi : i < s.length) :
    (s.get ⟨i, hi⟩).id = "doc_" ++ natRepr (i + 1) := by
  have hm := doc_ids_reachable s h
  have h2 := List.get_of_eq hm ⟨i, by simpa using hi⟩
  simpa using h2

theorem run_creates_nil (s : List ChatMessage) : run_creates [] s = s := rfl

theorem run_creates_cons (p : ChatMessageCreate × Int)
    (rest : List (ChatMessageCreate × Int)) (s : List ChatMessage) :
    run_creates (p :: rest) s = run_creates rest (create_message p.1 p.2 s).2 :=
  rfl

theorem run_creates_reachable (inputs : List (ChatMessageCreate × Int)) :
    ∀ s, ChatReachable s → ChatReachable (run_creates inputs s) := by
  induction inputs with
  | nil => intro s h; exact h
  | cons p rest ih =>
    intro s h
    rw [run_creates_cons]
    exact ih _ (ChatReachable.step s p.1 p.2 h)

theorem run_creates_length (inputs : List (ChatMessageCreate × Int)) :
    ∀ s, (run_creates inputs s).length = s.length + inputs.length := by
  induction inputs with
  | nil => intro s; simp [run_creates_nil]
  | cons p rest ih =>
    intro s
    rw [run_creates_cons, ih, create_message_length]
    simp
    omega

theorem randint_mem (a b : Int) (h : a ≤ b) (n : Nat) :
    a ≤ randint a b n ∧ randint a b n ≤ b := by
  unfold randint
  have h0 : 0 < (b + 1 - a).toNat := by omega
  have hlt : n % (b + 1 - a).toNat < (b + 1 - a).toNat := Nat.mod_lt _ h0
  omega

theorem natDigitsAux_digits (fuel : Nat) :
    ∀ n, ∀ c ∈ natDigitsAux fuel n, isDigitChar c := by
  induction fuel with
  | zero => intro n c hc; simp [natDigitsAux] at hc
  | succ f ih =>
    intro n c hc
    by_cases h10 : n < 10
    · simp only [natDigitsAux, if_pos h10, List.mem_singleton] at hc
      subst hc
      exact digitChar_isDigit n
    · simp only [natDigitsAux, if_neg h10, List.mem_append,
        List.mem_singleton] at hc
      rcases hc with hc | hc
      · exact ih (n / 10) c hc
      · subst hc
        exact digitChar_isDigit (n % 10)

theorem natDigits_digits (n : Nat) : ∀ c ∈ natDigits n, isDigitChar c :=
  natDigitsAux_digits (n + 1) n

theorem natDigitsAux_len (fuel : Nat) :
    ∀ n w, n < 10 ^ w → 0 < w → (natDigitsAux fuel n).length ≤ w := by
  induction fuel with
  | zero => intro n w _ _; simp [natDigitsAux]
  | succ f ih =>
    intro n w hn hw
    by_cases h10 : n < 10
    · simp only [natDigitsAux, if_pos h10, List.length_singleton]
      omega
    · have hw2 : 2 ≤ w := by
        by_contra hcon
        have hw1 : w = 1 := by omega
        subst hw1
        simp at hn
        omega
      have hpow : (10 : Nat) ^ w = 10 ^ (w - 1) * 10 := by
        rw [← pow_succ]
        congr 1
        omega
      have hdiv : n / 10 < 10 ^ (w - 1) := by
        rw [hpow] at hn
        omega
      have := ih (n / 10) (w - 1) hdiv (by omega)
      simp only [natDigitsAux, if_neg h10, List.length_append,
        List.length_singleton]
      omega

theorem natDigits_len (n w : Nat) (h : n < 10 ^ w) (hw : 0 < w) :
    (natDigits n).length ≤ w :=
  natDigitsAux_len (n + 1) n w h hw

theorem padZeros_len (w n : Nat) (h : n < 10 ^ w) (hw : 0 < w) :
    (padZeros w n).length = w := by
  have := natDigits_len n w h hw
  simp [padZeros]
  omega

theorem padZeros_digits (w n : Nat) : ∀ c ∈ padZeros w n, isDigitChar c := by
  intro c hc
  simp only [padZeros, List.mem_append, List.mem_replicate] at hc
  rcases hc with ⟨_, hc⟩ | hc
  · subst hc
    exact ⟨by decide, by decide⟩
  · exact natDigits_digits n c hc

theorem formatYMD_shape (y m d : Nat) (hy : y < 10000) (hm : m < 100)
    (hd : d < 100) : isYMDShape (formatYMD y m d).data := by
  refine ⟨padZeros 4 y, padZeros 2 m, padZeros 2 d, rfl, ?_, ?_, ?_,
    padZeros_digits 4 y, padZeros_digits 2 m, padZeros_digits 2 d⟩
  · exact padZeros_len 4 y (by norm_num; omega) (by norm_num)
  · exact padZeros_len 2 m (by norm_num; omega) (by norm_num)
  · exact padZeros_len 2 d (by norm_num; omega) (by norm_num)

theorem civil_month_day_bounds (z0 : Int) :
    1 ≤ (civilFromDays z0).2.1 ∧ (civilFromDays z0).2.1 ≤ 12 ∧
    1 ≤ (civilFromDays z0).2.2 ∧ (civilFromDays z0).2.2 ≤ 31 := by
  unfold civilFromDays
  simp only []
  omega

theorem civil_year_bounds (z0 : Int) (h1 : 0 ≤ z0) (h2 : z0 ≤ 2932896) :
    0 ≤ (civilFromDays z0).1 ∧ (civilFromDays z0).1 ≤ 9999 := by
  unfold civilFromDays
  simp only []
  omega

theorem formatDate_shape (z : Int) (h0 : 0 ≤ z) (h1 : z ≤ 2932896) :
    isYMDShape (formatDate z).data := by
  have hy := civil_year_bounds z h0 h1
  have hmd := civil_month_day_bounds z
  exact formatYMD_shape _ _ _ (by omega) (by omega) (by omega)

theorem chart_map_dates (today : Int) (r : Nat → Nat) :
    (get_recovery_chart_data today r).map (fun p => p.date) =
      (List.range 7).map
        (fun (i : Nat) => formatDate (today - 6 + (i : Int))) := by
  unfold get_recovery_chart_data
  rw [List.map_map]
  apply List.map_congr_left
  intro i _
  show formatDate (today - (6 - (i : Int))) = formatDate (today - 6 + (i : Int))
  congr 1
  ring

theorem chart_dates_explicit (today : Int) (r : Nat → Nat) :
    (get_recovery_chart_data today r).map (fun p => p.date) =
      [formatDate (today - 6), formatDate (today - 5), formatDate (today - 4),
       formatDate (today - 3), formatDate (today - 2), formatDate (today - 1),
       formatDate today] := by
  rw [chart_map_dates]
  rw [show List.range 7 = [0, 1, 2, 3, 4, 5, 6] from rfl]
  simp only [List.map_cons, List.map_nil, List.cons.injEq, and_true]
  refine ⟨by congr 1; ring, by congr 1; ring, by congr 1; ring,
    by congr 1; ring, by congr 1; ring, by congr 1; ring, by congr 1; ring⟩

theorem chart_length (today : Int) (r : Nat → Nat) :
    (get_recovery_chart_data today r).length = 7 := by
  simp [get_recovery_chart_data]

theorem chart_mem_spec (today : Int) (r : Nat → Nat) (p : RecoveryDataPoint)
    (hp : p ∈ get_recovery_chart_data today r) :
    ∃ i : Nat, i < 7 ∧ p.date = formatDate (today - (6 - (i : Int))) ∧
      p.score = randint 65 95 (r i) := by
  unfold get_recovery_chart_data at hp
  rcases List.mem_map.mp hp with ⟨i, hi, hpi⟩
  exact ⟨i, by simpa using hi, by rw [← hpi], by rw [← hpi]⟩

/-! ## Claim theorems -/

/-- Claim C1: for every store state and every `ChatMessageCreate` input,
`create_message` returns a `ChatMessage` whose id is `"msg_"` concatenated
with (store size before the call + 1), whose content and sender equal the
input's fields, whose timestamp is the current time at the call, and appends
exactly that record at the end of the store, so the store grows by exactly
one element; after `create_message("hi","alice")` then
`create_message("yo","bob")` on an initially empty store (at instants
`t1 ≤ t2`), `get_all_messages` returns exactly those two messages in that
order with ids `"msg_1"` then `"msg_2"` and non-decreasing timestamps. -/
theorem claim_C1_create_message_contract (msg : ChatMessageCreate)
    (now : Int) (s : List ChatMessage) (t1 t2 : Int) (hts : t1 ≤ t2) :
    ((create_message msg now s).1.id = "msg_" ++ natRepr (s.length + 1) ∧
      (create_message msg now s).1.content = msg.content ∧
      (create_message msg now s).1.sender = msg.sender ∧
      (create_message msg now s).1.timestamp = now ∧
      (create_message msg now s).2 = s ++ [(create_message msg now s).1] ∧
      (create_message msg now s).2.length = s.length + 1) ∧
    (get_all_messages
        (create_message ⟨"yo", "bob"⟩ t2
          (create_message ⟨"hi", "alice"⟩ t1 []).2).2 =
      [(create_message ⟨"hi", "alice"⟩ t1 []).1,
       (create_message ⟨"yo", "bob"⟩ t2
          (create_message ⟨"hi", "alice"⟩ t1 []).2).1] ∧
      (create_message ⟨"hi", "alice"⟩ t1 []).1.id = "msg_1" ∧
      (create_message ⟨"yo", "bob"⟩ t2
          (create_message ⟨"hi", "alice"⟩ t1 []).2).1.id = "msg_2" ∧
      (create_message ⟨"hi", "alice"⟩ t1 []).1.content = "hi" ∧
      (create_message ⟨"hi", "alice"⟩ t1 []).1.sender = "alice" ∧
      (create_message ⟨"yo", "bob"⟩ t2
          (create_message ⟨"hi", "alice"⟩ t1 []).2).1.content = "yo" ∧
      (create_message ⟨"yo", "bob"⟩ t2
          (create_message ⟨"hi", "alice"⟩ t1 []).2).1.sender = "bob" ∧
      (create_message ⟨"hi", "alice"⟩ t1 []).1.timestamp ≤
        (create_message ⟨"yo", "bob"⟩ t2
          (create_message ⟨"hi", "alice"⟩ t1 []).2).1.timestamp) :=
  ⟨⟨rfl, rfl, rfl, rfl, rfl, create_message_length msg now s⟩,
    rfl,
    by show "msg_" ++ natRepr (0 + 1) = "msg_1"; decide,
    by show "msg_" ++ natRepr (1 + 1) = "msg_2"; decide,
    rfl, rfl, rfl, rfl, hts⟩

/-- Claim C1 witness: the contract instantiated at a concrete input
(`msg = ("a","b")`, `now = 5`, empty store, instants `0 ≤ 1`). -/
theorem claim_C1_witness :
    (0 : Int) ≤ 1 ∧
    (((create_message ⟨"a", "b"⟩ 5 []).1.id = "msg_" ++ natRepr (0 + 1) ∧
      (create_message ⟨"a", "b"⟩ 5 []).1.content = "a" ∧
      (create_message ⟨"a", "b"⟩ 5 []).1.sender = "b" ∧
      (create_message ⟨"a", "b"⟩ 5 []).1.timestamp = 5 ∧
      (create_message ⟨"a", "b"⟩ 5 []).2 =
        [] ++ [(create_message ⟨"a", "b"⟩ 5 []).1] ∧
      (create_message ⟨"a", "b"⟩ 5 []).2.length = 0 + 1) ∧
    (get_all_messages
        (create_message ⟨"yo", "bob"⟩ 1
          (create_message ⟨"hi", "alice"⟩ 0 []).2).2 =
      [(create_message ⟨"hi", "alice"⟩ 0 []).1,
       (create_message ⟨"yo", "bob"⟩ 1
          (create_message ⟨"hi", "alice"⟩ 0 []).2).1] ∧
      (create_message ⟨"hi", "alice"⟩ 0 []).1.id = "msg_1" ∧
      (create_message ⟨"yo", "bob"⟩ 1
          (create_message ⟨"hi", "alice"⟩ 0 []).2).1.id = "msg_2" ∧
      (create_message ⟨"hi", "alice"⟩ 0 []).1.content = "hi" ∧
      (create_message ⟨"hi", "alice"⟩ 0 []).1.sender = "alice" ∧
      (create_message ⟨"yo", "bob"⟩ 1
          (create_message ⟨"hi", "alice"⟩ 0 []).2).1.content = "yo" ∧
      (create_message ⟨"yo", "bob"⟩ 1
          (create_message ⟨"hi", "alice"⟩ 0 []).2).1.sender = "bob" ∧
      (create_message ⟨"hi", "alice"⟩ 0 []).1.timestamp ≤
        (create_message ⟨"yo", "bob"⟩ 1
          (create_message ⟨"hi", "alice"⟩ 0 []).2).1.timestamp)) :=
  ⟨by norm_num,
    claim_C1_create_message_contract ⟨"a", "b"⟩ 5 [] 0 1 (by norm_num)⟩

/-- Claim C2: in every state reachable from the initial empty store by
`create_message` (resp. `create_document`) calls, stored ids are pairwise
distinct and the record at 1-based position `n` has id `"msg_" + n`
(resp. `"doc_" + n`); the store never shrinks under any operation (append
grows it by one, reads leave it unchanged). -/
theorem claim_C2_store_id_invariant (s : List ChatMessage)
    (d : List Document) (hs : ChatReachable s) (hd : DocReachable d) :
    (s.map (fun m => m.id)).Nodup ∧
    (∀ i (hi : i < s.length), (s.get ⟨i, hi⟩).id = "msg_" ++ natRepr (i + 1)) ∧
    (d.map (fun m => m.id)).Nodup ∧
    (∀ i (hi : i < d.length), (d.get ⟨i, hi⟩).id = "doc_" ++ natRepr (i + 1)) ∧
    (∀ msg now, (create_message msg now s).2.length = s.length + 1) ∧
    (∀ doc now, (create_document doc now d).2.length = d.length + 1) ∧
    get_all_messages s = s ∧ get_all_documents d = d := by
  refine ⟨?_, chat_positional_ids s hs, ?_, doc_positional_ids d hd,
    fun msg now => create_message_length msg now s,
    fun doc now => create_document_length doc now d, rfl, rfl⟩
  · rw [chat_ids_reachable s hs]
    exact prefixed_ids_nodup "msg_" s.length
  · rw [doc_ids_reachable d hd]
    exact prefixed_ids_nodup "doc_" d.length

/-- Claim C2 witness: the invariant instantiated at the two-message chat
state reached by appending twice and a one-document state. -/
theorem claim_C2_witness :
    ChatReachable
      (create_message ⟨"yo", "bob"⟩ 1
        (create_message ⟨"hi", "alice"⟩ 0 []).2).2 ∧
    DocReachable (create_document ⟨"t", "c"⟩ 2 []).2 ∧
    (((create_message ⟨"yo", "bob"⟩ 1
        (create_message ⟨"hi", "alice"⟩ 0 []).2).2.map
      (fun m => m.id)).Nodup ∧
    (∀ i (hi : i < (create_message ⟨"yo", "bob"⟩ 1
        (create_message ⟨"hi", "alice"⟩ 0 []).2).2.length),
      ((create_message ⟨"yo", "bob"⟩ 1
        (create_message ⟨"hi", "alice"⟩ 0 []).2).2.get ⟨i, hi⟩).id =
        "msg_" ++ natRepr (i + 1)) ∧
    (((create_document ⟨"t", "c"⟩ 2 []).2.map (fun m => m.id)).Nodup ∧
    (∀ i (hi : i < (create_document ⟨"t", "c"⟩ 2 []).2.length),
      ((create_document ⟨"t", "c"⟩ 2 []).2.get ⟨i, hi⟩).id =
        "doc_" ++ natRepr (i + 1)) ∧
    (∀ msg now, (create_message msg now
      (create_message ⟨"yo", "bob"⟩ 1
        (create_message ⟨"hi", "alice"⟩ 0 []).2).2).2.length =
      (create_message ⟨"yo", "bob"⟩ 1
        (create_message ⟨"hi", "alice"⟩ 0 []).2).2.length + 1) ∧
    (∀ doc now, (create_document doc now
      (create_document ⟨"t", "c"⟩ 2 []).2).2.length =
      (create_document ⟨"t", "c"⟩ 2 []).2.length + 1) ∧
    get_all_messages (create_message ⟨"yo", "bob"⟩ 1
      (create_message ⟨"hi", "alice"⟩ 0 []).2).2 =
      (create_message ⟨"yo", "bob"⟩ 1
        (create_message ⟨"hi", "alice"⟩ 0 []).2).2 ∧
    get_all_documents (create_document ⟨"t", "c"⟩ 2 []).2 =
      (create_document ⟨"t", "c"⟩ 2 []).2)) := by
  have h1 : ChatReachable
      (create_message ⟨"yo", "bob"⟩ 1
        (create_message ⟨"hi", "alice"⟩ 0 []).2).2 :=
    ChatReachable.step _ _ _ (ChatReachable.step _ _ _ ChatReachable.init)
  have h2 : DocReachable (create_document ⟨"t", "c"⟩ 2 []).2 :=
    DocReachable.step _ _ _ DocReachable.init
  have h3 := claim_C2_store_id_invariant _ _ h1 h2
  exact ⟨h1, h2, h3.1, h3.2.1, h3.2.2.1, h3.2.2.2.1, h3.2.2.2.2.1,
    h3.2.2.2.2.2.1, h3.2.2.2.2.2.2.1, h3.2.2.2.2.2.2.2⟩

/-- Claim C3: every call to `get_metrics` yields a `Metrics` value whose
fields lie in the documented closed intervals: recovery_score in [70,95],
mobility_score in [60,90], pain_level in [1,5], exercises_completed in
[3,15], streak_days in [1,10] — for every possible draw of the generator. -/
theorem claim_C3_metrics_bounds (r1 r2 r3 r4 r5 : Nat) :
    (70 ≤ (get_metrics r1 r2 r3 r4 r5).recovery_score ∧
      (get_metrics r1 r2 r3 r4 r5).recovery_score ≤ 95) ∧
    (60 ≤ (get_metrics r1 r2 r3 r4 r5).mobility_score ∧
      (get_metrics r1 r2 r3 r4 r5).mobility_score ≤ 90) ∧
    (1 ≤ (get_metrics r1 r2 r3 r4 r5).pain_level ∧
      (get_metrics r1 r2 r3 r4 r5).pain_level ≤ 5) ∧
    (3 ≤ (get_metrics r1 r2 r3 r4 r5).exercises_completed ∧
      (get_metrics r1 r2 r3 r4 r5).exercises_completed ≤ 15) ∧
    (1 ≤ (get_metrics r1 r2 r3 r4 r5).streak_days ∧
      (get_metrics r1 r2 r3 r4 r5).streak_days ≤ 10) :=
  ⟨randint_mem 70 95 (by norm_num) r1, randint_mem 60 90 (by norm_num) r2,
    randint_mem 1 5 (by norm_num) r3, randint_mem 3 15 (by norm_num) r4,
    randint_mem 1 10 (by norm_num) r5⟩

/-- Claim C4: `get_recovery_chart_data` returns exactly 7 points whose dates
are the 7 consecutive calendar days ending at the current date, oldest
first, each formatted `YYYY-MM-DD`, and every score lies in [65,95]. The
day-number bounds keep each formatted year within four digits. -/
theorem claim_C4_recovery_chart (today : Int) (r : Nat → Nat)
    (h0 : 6 ≤ today) (h1 : today ≤ 2932896) :
    (get_recovery_chart_data today r).length = 7 ∧
    (get_recovery_chart_data today r).map (fun p => p.date) =
      [formatDate (today - 6), formatDate (today - 5), formatDate (today - 4),
       formatDate (today - 3), formatDate (today - 2), formatDate (today - 1),
       formatDate today] ∧
    ((get_recovery_chart_data today r).map (fun p => p.date)).getLast? =
      some (formatDate today) ∧
    (∀ p ∈ get_recovery_chart_data today r,
      65 ≤ p.score ∧ p.score ≤ 95 ∧ isYMDShape p.date.data) := by
  refine ⟨chart_length today r, chart_dates_explicit today r, ?_, ?_⟩
  · rw [chart_dates_explicit today r]
    rfl
  · intro p hp
    rcases chart_mem_spec today r p hp with ⟨i, hi7, hdate, hscore⟩
    have hb := randint_mem 65 95 (by norm_num) (r i)
    refine ⟨by rw [hscore]; exact hb.1, by rw [hscore]; exact hb.2, ?_⟩
    rw [hdate]
    have hi : (i : Int) ≤ 6 := by exact_mod_cast Nat.le_of_lt_succ hi7
    have hi0 : (0 : Int) ≤ (i : Int) := Int.ofNat_nonneg i
    exact formatDate_shape _ (by omega) (by omega)

/-- Claim C4 witness: the chart contract at day number 20738 (2026-10-12)
with the constant-zero draw oracle. -/
theorem claim_C4_witness :
    (6 : Int) ≤ 20738 ∧ (20738 : Int) ≤ 2932896 ∧
    ((get_recovery_chart_data 20738 (fun _ => 0)).length = 7 ∧
    (get_recovery_chart_data 20738 (fun _ => 0)).map (fun p => p.date) =
      [formatDate (20738 - 6), formatDate (20738 - 5), formatDate (20738 - 4),
       formatDate (20738 - 3), formatDate (20738 - 2), formatDate (20738 - 1),
       formatDate 20738] ∧
    ((get_recovery_chart_data 20738 (fun _ => 0)).map
        (fun p => p.date)).getLast? = some (formatDate 20738) ∧
    (∀ p ∈ get_recovery_chart_data 20738 (fun _ => 0),
      65 ≤ p.score ∧ p.score ≤ 95 ∧ isYMDShape p.date.data)) :=
  ⟨by norm_num, by norm_num,
    claim_C4_recovery_chart 20738 (fun _ => 0) (by norm_num) (by norm_num)⟩

/-- Claim C5: the document store is structurally identical to the chat
store with fields title/content and id prefix `"doc_"`: `create_document`
returns a record with id `"doc_" + (count + 1)`, the input's title and
content, the current time as timestamp, and appends it;
`get_all_documents` returns the stored documents in insertion order. -/
theorem claim_C5_document_store_contract (doc : DocumentCreate) (now : Int)
    (s : List Document) :
    (create_document doc now s).1.id = "doc_" ++ natRepr (s.length + 1) ∧
    (create_document doc now s).1.title = doc.title ∧
    (create_document doc now s).1.content = doc.content ∧
    (create_document doc now s).1.timestamp = now ∧
    (create_document doc now s).2 = s ++ [(create_document doc now s).1] ∧
    (create_document doc now s).2.length = s.length + 1 ∧
    get_all_documents s = s :=
  ⟨rfl, rfl, rfl, rfl, rfl, create_document_length doc now s, rfl⟩

/-- Claim C6: reads are idempotent and side-effect free: two
`get_all_messages` calls with no intervening `create_message` return equal
sequences, a read leaves the store unchanged, the empty store yields the
empty sequence, and all messages come back in insertion order (the store
itself, unmodified). -/
theorem claim_C6_reads_idempotent (st : AppState) (s : List ChatMessage) :
    (app_get_all_messages ((app_get_all_messages st).2)).1 =
      (app_get_all_messages st).1 ∧
    (app_get_all_messages st).2 = st ∧
    get_all_messages ([] : List ChatMessage) = [] ∧
    get_all_messages s = s :=
  ⟨rfl, rfl, rfl, rfl⟩

/-- Claim C7: for all string inputs, empty strings included,
`create_message` and `create_document` are total: they return the new
record, append exactly it, and grow the store by one — no failure result
exists in the model. -/
theorem claim_C7_creates_total (content sender title dcontent : String)
    (now : Int) (s : List ChatMessage) (d : List Document) :
    (create_message ⟨content, sender⟩ now s).2 =
      s ++ [(create_message ⟨content, sender⟩ now s).1] ∧
    (create_message ⟨content, sender⟩ now s).2.length = s.length + 1 ∧
    (create_document ⟨title, dcontent⟩ now d).2 =
      d ++ [(create_document ⟨title, dcontent⟩ now d).1] ∧
    (create_document ⟨title, dcontent⟩ now d).2.length = d.length + 1 ∧
    (create_message ⟨"", ""⟩ now s).2.length = s.length + 1 ∧
    (create_document ⟨"", ""⟩ now d).2.length = d.length + 1 :=
  ⟨rfl, create_message_length _ now s, rfl, create_document_length _ now d,
    create_message_length _ now s, create_document_length _ now d⟩

/-- Claim C8 counterexample: in the two-phase (read length, then commit)
model of `create_message`, the unserialized schedule in which two
concurrent calls both perform their length read on the empty store before
either commits produces two messages that both carry id `"msg_1"` —
duplicate, not gapless — so concurrent dispatch alone does not yield
distinct ids `"msg_1".."msg_N"`. -/
theorem claim_C8_counterexample :
    (create_commit ⟨"yo", "bob"⟩ 1 (create_read [])
        (create_commit ⟨"hi", "alice"⟩ 0 (create_read []) []).2).2.map
      (fun m => m.id) = ["msg_1", "msg_1"] ∧
    ¬ ((create_commit ⟨"yo", "bob"⟩ 1 (create_read [])
        (create_commit ⟨"hi", "alice"⟩ 0 (create_read []) []).2).2.map
      (fun m => m.id)).Nodup := by
  constructor
  · decide
  · decide

/-- Claim C8 (amended): `create_message` factors as reading the current
store length and then using it (`create_commit` after `create_read`), with
no exclusion between the phases; when the N calls are serialized — each
read paired atomically with its commit — they produce N messages with N
distinct, gapless ids `"msg_1".."msg_N"`. -/
theorem claim_C8_read_then_append (msg : ChatMessageCreate) (now : Int)
    (s : List ChatMessage) (inputs : List (ChatMessageCreate × Int)) :
    create_message msg now s = create_commit msg now (create_read s) s ∧
    (run_creates inputs []).length = inputs.length ∧
    (run_creates inputs []).map (fun m => m.id) =
      (List.range inputs.length).map (fun i => "msg_" ++ natRepr (i + 1)) ∧
    ((run_creates inputs []).map (fun m => m.id)).Nodup := by
  have hre : ChatReachable (run_creates inputs []) :=
    run_creates_reachable inputs [] ChatReachable.init
  have hlen : (run_creates inputs []).length = inputs.length := by
    rw [run_creates_length]
    simp
  refine ⟨rfl, hlen, ?_, ?_⟩
  · rw [chat_ids_reachable _ hre, hlen]
  · rw [chat_ids_reachable _ hre]
    exact prefixed_ids_nodup "msg_" (run_creates inputs []).length

/-- Claim C9: the two stores and the generator are mutually independent:
chat operations leave the documents store unchanged, document operations
leave the chat store unchanged, and the metrics and recovery-chart
generators modify neither store. -/
theorem claim_C9_frame_independence (msg : ChatMessageCreate)
    (doc : DocumentCreate) (now : Int) (r1 r2 r3 r4 r5 : Nat)
    (today : Int) (r : Nat → Nat) (st : AppState) :
    (app_create_message msg now st).2.documents = st.documents ∧
    (app_get_all_messages st).2.documents = st.documents ∧
    (app_create_document doc now st).2.chat_messages = st.chat_messages ∧
    (app_get_all_documents st).2.chat_messages = st.chat_messages ∧
    (app_get_metrics r1 r2 r3 r4 r5 st).2 = st ∧
    (app_get_recovery_chart_data today r st).2 = st :=
  ⟨rfl, rfl, rfl, rfl, rfl, rfl⟩

/-- Claim C10: the `Metrics` and `RecoveryDataPoint` types impose no range
constraint on their fields: values outside the documented intervals (for
instance recovery_score = 200 or score = -1) construct successfully; the
documented bounds come only from the generator. -/
theorem claim_C10_types_unconstrained :
    (Metrics.mk 200 200 200 200 200).recovery_score = 200 ∧
    ¬ ((Metrics.mk 200 200 200 200 200).recovery_score ≤ 95) ∧
    (RecoveryDataPoint.mk "2026-10-12" (-1)).score = -1 ∧
    ¬ (65 ≤ (RecoveryDataPoint.mk "2026-10-12" (-1)).score) ∧
    (∀ n : Nat, 70 ≤ (get_metrics n n n n n).recovery_score ∧
      (get_metrics n n n n n).recovery_score ≤ 95) :=
  ⟨rfl, by norm_num, rfl, by norm_num,
    fun n => randint_mem 70 95 (by norm_num) n⟩
